import Mathlib

/-!
Verification of the VROS support-site bug tracker.

The development shallowly embeds the label/column mapper of the client-side
GitHub wrapper (src/bugs-tracker/src/api/github.js) and the Cloudflare
Worker API gateway (the worker source: rate limiter, token store, response
cache, HTTP handlers and router), and proves or refutes the specified
properties about them.

String scanning operations (startsWith, split) are modelled over the
underlying character lists so that all definitions reduce inside the kernel.
-/

/-- JS `s.startsWith(pre)`, over character data. -/
def strStartsWith (s pre : String) : Bool :=
  pre.data.isPrefixOf s.data

/-- JS `String.prototype.split(sep)` for a single-character separator,
over character lists: splits at every occurrence of `c`. -/
def splitOnChar (c : Char) : List Char → List (List Char)
  | [] => [[]]
  | x :: xs =>
    if x = c then [] :: splitOnChar c xs
    else
      match splitOnChar c xs with
      | [] => [[x]]
      | h :: t => (x :: h) :: t

/-- JS `name.split(sep)[1]` (with `undefined` modelled as the empty string),
used to extract the value part of a `family:value` label. -/
def splitSecondField (name : String) : String :=
  String.mk ((splitOnChar ':' name.data).getD 1 [])

/-! ## Label/Column mapper (src/bugs-tracker/src/api/github.js) -/

/-- The fixed status-label family, exactly as listed in
`updateIssueLabels` (github.js lines 176–182). -/
def statusLabels : List String :=
  ["status:backlog", "status:todo", "status:in-progress", "status:testing", "status:done"]

/-- The five Kanban columns. The drag handler (KanbanColumn.jsx `statusMap`)
targets exactly these, with `inProgress` rendered as `in-progress`. -/
inductive Col where
  | backlog
  | todo
  | inProgress
  | testing
  | done
deriving DecidableEq, Repr

/-- The status-label name for a column (KanbanColumn.jsx `statusMap` values). -/
def colName : Col → String
  | .backlog => "backlog"
  | .todo => "todo"
  | .inProgress => "in-progress"
  | .testing => "testing"
  | .done => "done"

/-- The pure label computation inside `updateIssueLabels`
(github.js lines 184–191): drop every label in the fixed status family from
the current label names, then append `status:<target>`. -/
def toLabelDelta (currentLabels : List String) (target : Col) : List String :=
  currentLabels.filter (fun name => decide (name ∉ statusLabels)) ++
    ["status:" ++ colName target]

/-- A GitHub label object; only the `name` field is consumed by the mapper. -/
structure GhLabel where
  name : String
deriving DecidableEq, Repr

/-- The slice of a GitHub issue consumed by the categorizer: its open/closed
`state` string and its label objects. -/
structure GhIssue where
  state : String
  labels : List GhLabel
deriving DecidableEq, Repr

/-- The column decision inside `categorizeIssues` (github.js lines 110–124):
default `backlog`; `status:done` or closed state wins first, then
`status:testing`, then `status:in-progress`, then `status:todo`. -/
def toColumn (issue : GhIssue) : Col :=
  let labels := issue.labels.map (·.name)
  if "status:done" ∈ labels ∨ issue.state = "closed" then .done
  else if "status:testing" ∈ labels then .testing
  else if "status:in-progress" ∈ labels then .inProgress
  else if "status:todo" ∈ labels then .todo
  else .backlog

/-- `getSeverity` (github.js lines 158–161): first label whose name starts
with `severity:`, its value part, else `medium`. -/
def getSeverity (labels : List GhLabel) : String :=
  match labels.find? (fun l => strStartsWith l.name "severity:") with
  | some l => splitSecondField l.name
  | none => "medium"

/-- `getCategory` (github.js lines 166–169): first label whose name starts
with `category:`, its value part, else `general`. -/
def getCategory (labels : List GhLabel) : String :=
  match labels.find? (fun l => strStartsWith l.name "category:") with
  | some l => splitSecondField l.name
  | none => "general"

/-- The column a label name in the status family denotes. -/
def colOfStatusName (n : String) : Col :=
  if n = "status:todo" then .todo
  else if n = "status:in-progress" then .inProgress
  else if n = "status:testing" then .testing
  else if n = "status:done" then .done
  else .backlog

/-- Refinement reference for the categorizer, following the specification
text word for word: a closed issue with no recognized status label is done;
otherwise the first label (in upstream order) whose name is one of the five
recognized status labels decides the column; otherwise backlog. -/
def toColumnSpec (issue : GhIssue) : Col :=
  let labels := issue.labels.map (·.name)
  if issue.state = "closed" ∧ labels.filter (fun n => decide (n ∈ statusLabels)) = [] then
    .done
  else
    match labels.find? (fun n => decide (n ∈ statusLabels)) with
    | some n => colOfStatusName n
    | none => .backlog

/-! ## API gateway (Cloudflare Worker source) -/

/-- One record of a Cloudflare KV namespace: key, value, and the absolute
expiration instant when the write carried an `expirationTtl`. -/
structure KVEntry (α : Type) where
  key : String
  value : α
  expiresAt : Option Nat
deriving DecidableEq, Repr

/-- A KV namespace, newest write first. -/
abbrev KVStore (α : Type) := List (KVEntry α)

/-- `namespace.get(k)` at instant `now`: the newest write of the key, unless
it has expired (expiry is enforced lazily at read time). -/
def kvGet (kv : KVStore α) (now : Nat) (k : String) : Option α :=
  match kv with
  | [] => none
  | e :: rest =>
    if e.key = k then
      match e.expiresAt with
      | some t => if now < t then some e.value else none
      | none => some e.value
    else kvGet rest now k

/-- `namespace.put(k, v, ttl?)` at instant `now`. -/
def kvPut (kv : KVStore α) (now : Nat) (k : String) (v : α) (ttl : Option Nat) : KVStore α :=
  ⟨k, v, ttl.map (fun d => now + d)⟩ :: kv

/-- A record of the TOKENS namespace (worker `validateAppToken`). -/
structure TokenRecord where
  created : Nat
  lastUsed : Nat
  tokenType : String
deriving DecidableEq, Repr

/-- Worker `validateAppToken` (lines 35–61): a recorded token is trusted and
its last-used instant refreshed; an unseen token with the `vros-` prefix is
recorded and trusted; anything else — including a missing header — is not. -/
def validateAppToken (token : Option String) (tokens : KVStore TokenRecord) (now : Nat) :
    Bool × KVStore TokenRecord :=
  match token with
  | none => (false, tokens)
  | some t =>
    match kvGet tokens now t with
    | some r => (true, kvPut tokens now t { r with lastUsed := now } none)
    | none =>
      if strStartsWith t "vros-" then
        (true, kvPut tokens now t ⟨now, now, "app-generated"⟩ none)
      else (false, tokens)

/-- JS `parseInt` restricted to the numerals this worker itself stores:
the leading run of decimal digits, or nothing when there is none. -/
def parseIntStr (s : String) : Option Nat :=
  let ds := s.data.takeWhile Char.isDigit
  if ds = [] then none
  else some (ds.foldl (fun acc c => acc * 10 + (c.toNat - 48)) 0)

/-- Worker `checkRateLimit` (lines 64–79): fixed ceiling of 10 per address;
a stored count of 10 or more rejects without writing; otherwise the count is
incremented (or initialized to 1) with a one-hour expiration. -/
def checkRateLimit (ip : String) (rl : KVStore String) (now : Nat) : Bool × KVStore String :=
  let key := "rate:" ++ ip
  match kvGet rl now key with
  | some currentCount =>
    let count := (parseIntStr currentCount).getD 0
    if count ≥ 10 then (false, rl)
    else (true, kvPut rl now key (Nat.repr (count + 1)) (some 3600))
  | none => (true, kvPut rl now key "1" (some 3600))

/-- The three KV namespaces bound to the worker. -/
structure GwState where
  tokens : KVStore TokenRecord
  rateLimit : KVStore String
  cache : KVStore String
deriving Repr

/-- An upstream GitHub API call issued by a handler, as observed at the
worker boundary. -/
inductive UpstreamCall where
  | getIssues (url : String)
  | createIssue (title issueBody : String) (labels : List String)
  | putLabels (issueNumber : String) (labels : List String)
deriving DecidableEq, Repr

/-- The JSON body shapes the worker responds with. -/
inductive RespBody where
  | errMsg (error : String)
  | upstreamError (status : Nat)
  | errDetails (error details : String)
  | submitOk (issueNumber : Nat) (issueUrl message : String)
  | raw (text : String)
  | labelsResult (text : String)
deriving DecidableEq, Repr

/-- A worker response: HTTP status, JSON body, and the X-Cache marker when
one is attached. -/
structure GwResponse where
  status : Nat
  body : RespBody
  xCache : Option String := none
deriving DecidableEq, Repr

/-- Outcome of an upstream fetch that the handler consumes as raw text. -/
inductive FetchResult where
  | ok (text : String)
  | err (status : Nat) (text : String)
deriving DecidableEq, Repr

/-- Outcome of the upstream issue-creation call, as the handler reads it
from the response JSON. -/
inductive CreateResult where
  | ok (number : Nat) (htmlUrl : String)
  | err (status : Nat) (text : String)
deriving DecidableEq, Repr

/-- Concatenate with a separator (JS `Array.prototype.join` shape). -/
def joinSep (sep : String) : List String → String
  | [] => ""
  | [x] => x
  | x :: y :: t => x ++ sep ++ joinSep sep (y :: t)

/-- The GitHub URL `handleGetIssues` builds (lines 87–94): the repository
issues endpoint plus the recognized query parameters forwarded in their
fixed order. -/
def buildGithubIssuesUrl (owner repo : String) (params : List (String × String)) : String :=
  let forwarded := (["state", "labels", "sort", "direction", "since", "page", "per_page"
    ] : List String).filterMap
      (fun p => (params.find? (fun q => decide (q.1 = p))).map (fun q => p ++ "=" ++ q.2))
  "https://api.github.com/repos/" ++ owner ++ "/" ++ repo ++ "/issues" ++
    (if forwarded = [] then "" else "?" ++ joinSep "&" forwarded)

/-- Worker `handleGetIssues` (lines 82–137): serve the cached copy when one
is present; otherwise fetch upstream, propagate a non-OK status without
caching, and cache a successful body for 300 seconds. -/
def handleGetIssues (owner repo : String) (params : List (String × String))
    (upstream : FetchResult) (now : Nat) (st : GwState) :
    GwResponse × GwState × List UpstreamCall :=
  let githubUrl := buildGithubIssuesUrl owner repo params
  let cacheKey := "issues:" ++ githubUrl
  match kvGet st.cache now cacheKey with
  | some cached =>
    ({ status := 200, body := .raw cached, xCache := some "HIT" }, st, [])
  | none =>
    match upstream with
    | .err s _ =>
      ({ status := s, body := .upstreamError s }, st, [.getIssues githubUrl])
    | .ok data =>
      ({ status := 200, body := .raw data, xCache := some "MISS" },
       { st with cache := kvPut st.cache now cacheKey data (some 300) },
       [.getIssues githubUrl])

/-- The `systemInfo` object of a bug submission. -/
structure SystemInfo where
  os : Option String := none
  browser : Option String := none
  version : Option String := none
  headset : Option String := none
deriving DecidableEq, Repr

/-- The parsed JSON body of a bug submission; absent fields are `none`. -/
structure BugBody where
  title : Option String := none
  description : Option String := none
  severity : Option String := none
  category : Option String := none
  steps : Option String := none
  expected : Option String := none
  actual : Option String := none
  systemInfo : Option SystemInfo := none
  additional : Option String := none
deriving DecidableEq, Repr

/-- JS truthiness of an optional string field: present and non-empty. -/
def jsTruthy (o : Option String) : Bool :=
  match o with
  | none => false
  | some s => decide (s ≠ "")

/-- JS `field || default`: the field when truthy, the default otherwise. -/
def jsOr (o : Option String) (dflt : String) : String :=
  match o with
  | none => dflt
  | some s => if s = "" then dflt else s

/-- JS template interpolation of an optional field (an absent field prints
as the string undefined). -/
def jsInterp (o : Option String) : String :=
  o.getD "undefined"

/-- The issue body template of `handleBugSubmit` (lines 168–191). -/
def buildIssueBody (b : BugBody) (isFromApp : Bool) : String :=
  "## Description\n" ++ jsInterp b.description ++
  "\n\n## Severity\n" ++ jsOr b.severity "medium" ++
  "\n\n## Category\n" ++ jsOr b.category "general" ++
  "\n\n" ++
  (if jsTruthy b.steps then "## Steps to Reproduce\n" ++ jsInterp b.steps ++ "\n" else "") ++
  "\n" ++
  (if jsTruthy b.expected then "## Expected Behavior\n" ++ jsInterp b.expected ++ "\n" else "") ++
  "\n" ++
  (if jsTruthy b.actual then "## Actual Behavior\n" ++ jsInterp b.actual ++ "\n" else "") ++
  "\n\n## System Information\n- **Submitted from:** " ++
  (if isFromApp then "VROS App" else "Web") ++
  "\n- **OS:** " ++ jsOr (b.systemInfo.bind (·.os)) "Unknown" ++
  "\n- **Browser:** " ++ jsOr (b.systemInfo.bind (·.browser)) "Unknown" ++
  "\n- **App Version:** " ++ jsOr (b.systemInfo.bind (·.version)) "N/A" ++
  "\n- **VR Headset:** " ++ jsOr (b.systemInfo.bind (·.headset)) "None" ++
  "\n\n" ++
  (if jsTruthy b.additional then "## Additional Information\n" ++ jsInterp b.additional else "") ++
  "\n\n---\n*Submitted via VROS Bug Tracker" ++
  (if isFromApp then " (App)" else " (Web)") ++ "*"

/-- The labels `handleBugSubmit` attaches (lines 194–197): always `bug`;
`severity:`/`category:` labels only when the field is truthy; and
`web-submission` exactly when the token did not validate. -/
def submitLabels (b : BugBody) (isFromApp : Bool) : List String :=
  ["bug"] ++
  (if jsTruthy b.severity then ["severity:" ++ jsInterp b.severity] else []) ++
  (if jsTruthy b.category then ["category:" ++ jsInterp b.category] else []) ++
  (if isFromApp then [] else ["web-submission"])

/-- Worker `handleBugSubmit` (lines 140–240): rate-limit gate, token
classification, required-field validation, the upstream create call, and the
success envelope. `create` is the upstream outcome the handler would
observe. -/
def handleBugSubmit (ip appToken : Option String) (b : BugBody) (create : CreateResult)
    (now : Nat) (st : GwState) : GwResponse × GwState × List UpstreamCall :=
  let ipv := ip.getD "unknown"
  let gate := checkRateLimit ipv st.rateLimit now
  let st1 := { st with rateLimit := gate.2 }
  if !gate.1 then
    ({ status := 429, body := .errMsg "Rate limit exceeded. Please try again later." }, st1, [])
  else
    let cls := validateAppToken appToken st1.tokens now
    let isFromApp := cls.1
    let st2 := { st1 with tokens := cls.2 }
    if !jsTruthy b.title || !jsTruthy b.description then
      ({ status := 400, body := .errMsg "Missing required fields: title, description" },
       st2, [])
    else
      let issueBody := buildIssueBody b isFromApp
      let labels := submitLabels b isFromApp
      let calls := [UpstreamCall.createIssue (jsInterp b.title) issueBody labels]
      match create with
      | .err s details =>
        ({ status := s, body := .errDetails "Failed to create issue" details }, st2, calls)
      | .ok number htmlUrl =>
        ({ status := 200,
           body := .submitOk number htmlUrl "Bug report submitted successfully" },
         st2, calls)

/-- Worker `handleUpdateLabels` (lines 243–278): validate that a labels
array is present, then replace the labels upstream; there is no rate-limit
or token gate on this handler. -/
def handleUpdateLabels (issueNumber : String) (labelsField : Option (List String))
    (upstream : FetchResult) (st : GwState) : GwResponse × GwState × List UpstreamCall :=
  match labelsField with
  | none =>
    ({ status := 400, body := .errMsg "Labels array required" }, st, [])
  | some labels =>
    match upstream with
    | .err s _ =>
      ({ status := s, body := .errMsg "Failed to update labels" }, st,
       [.putLabels issueNumber labels])
    | .ok data =>
      ({ status := 200, body := .labelsResult data }, st,
       [.putLabels issueNumber labels])

/-- Strip an expected prefix from a character list. -/
def stripPfx : List Char → List Char → Option (List Char)
  | [], l => some l
  | _ :: _, [] => none
  | a :: as, b :: bs => if a = b then stripPfx as bs else none

/-- The worker route regex for label updates: a path of shape
`/api/issues/<digits>/labels` yields the captured digit run. -/
def matchIssueLabelsPath (p : String) : Option String :=
  match stripPfx "/api/issues/".data p.data with
  | none => none
  | some rest =>
    let digits := rest.takeWhile Char.isDigit
    let after := rest.dropWhile Char.isDigit
    if digits ≠ [] ∧ after = "/labels".data then some (String.mk digits) else none

/-- The handler a request dispatches to. -/
inductive RouteResult where
  | getIssues
  | submitBug
  | updateLabels (issueNumber : String)
  | patchNotes
  | latestVersion
  | stats
  | health
  | notFound
deriving DecidableEq, Repr

/-- The route checks of the worker `fetch` entry point that follow the
label-update check, in source order (lines 497–522). -/
def routeRest (method pathname : String) : RouteResult :=
  if pathname = "/api/patch-notes" ∧ method = "GET" then .patchNotes
  else if pathname = "/api/latest-version" ∧ method = "GET" then .latestVersion
  else if pathname = "/api/stats" ∧ method = "GET" then .stats
  else if pathname = "/api/health" then .health
  else .notFound

/-- The full route dispatch of the worker `fetch` entry point
(lines 484–522), in source order. -/
def routeOf (method pathname : String) : RouteResult :=
  if pathname = "/api/issues" ∧ method = "GET" then .getIssues
  else if pathname = "/api/submit-bug" ∧ method = "POST" then .submitBug
  else
    match matchIssueLabelsPath pathname with
    | some n => if method = "PUT" then .updateLabels n else routeRest method pathname
    | none => routeRest method pathname

/-- The uniform not-found envelope (worker lines 519–522). -/
def notFoundResponse : GwResponse :=
  { status := 404, body := .errMsg "Not found" }

/-- The RATE_LIMIT namespace after `n` consecutive admission checks for
`ip`, all at instant `now`, starting from an empty namespace. -/
def rlStateAfter (ip : String) (now : Nat) : Nat → KVStore String
  | 0 => []
  | n + 1 => (checkRateLimit ip (rlStateAfter ip now n) now).2

/-- The appended status label always belongs to the fixed family. -/
theorem statusLabel_of_col_mem (c : Col) : ("status:" ++ colName c) ∈ statusLabels := by
  cases c <;> decide

/-- C1: from any duplicate-free label set, the label delta carries at most
one label of the status family, preserves the non-status labels exactly, and
stays duplicate-free. -/
theorem toLabelDelta_status_exclusive (L : List String) (c : Col) (hL : L.Nodup) :
    (toLabelDelta L c).countP (fun s => decide (s ∈ statusLabels)) ≤ 1 ∧
    (toLabelDelta L c).filter (fun s => decide (s ∉ statusLabels)) =
      L.filter (fun s => decide (s ∉ statusLabels)) ∧
    (toLabelDelta L c).Nodup := by
  have hmem := statusLabel_of_col_mem c
  refine ⟨?_, ?_, ?_⟩
  · have h0 : (L.filter (fun s => decide (s ∉ statusLabels))).countP
        (fun s => decide (s ∈ statusLabels)) = 0 := by
      rw [List.countP_eq_zero]
      intro a ha
      rcases List.mem_filter.mp ha with ⟨_, hnot⟩
      simpa using hnot
    simp [toLabelDelta, List.countP_append, h0, hmem]
  · simp [toLabelDelta, List.filter_append, List.filter_filter, hmem]
  · refine List.Nodup.append (hL.filter _) (List.nodup_singleton _) ?_
    intro a ha hb
    rcases List.mem_filter.mp ha with ⟨_, hnot⟩
    rcases List.mem_singleton.mp hb with rfl
    simp [hmem] at hnot

/-- Witness for `toLabelDelta_status_exclusive` at a concrete label set. -/
theorem toLabelDelta_status_exclusive_witness :
    (toLabelDelta ["bug", "status:todo"] Col.testing).countP
        (fun s => decide (s ∈ statusLabels)) ≤ 1 ∧
    (toLabelDelta ["bug", "status:todo"] Col.testing).filter
        (fun s => decide (s ∉ statusLabels)) =
      (["bug", "status:todo"] : List String).filter (fun s => decide (s ∉ statusLabels)) ∧
    (toLabelDelta ["bug", "status:todo"] Col.testing).Nodup :=
  toLabelDelta_status_exclusive ["bug", "status:todo"] Col.testing (by decide)

/-- C7: the label delta with a fixed target column is idempotent. -/
theorem toLabelDelta_idempotent (L : List String) (c : Col) :
    toLabelDelta (toLabelDelta L c) c = toLabelDelta L c := by
  have hmem := statusLabel_of_col_mem c
  simp [toLabelDelta, List.filter_append, List.filter_filter, hmem]

/-- C2 counterexample: a closed issue still labelled `status:todo` is
categorized into done by the code, while the specified algorithm returns
todo for it. -/
theorem toColumn_closed_status_counterexample :
    toColumn ⟨"closed", [⟨"status:todo"⟩]⟩ = Col.done ∧
    toColumnSpec ⟨"closed", [⟨"status:todo"⟩]⟩ = Col.todo ∧
    Col.done ≠ Col.todo := by
  decide

/-- C2 amended: the categorizer is total into the five columns; every
closed issue lands in done regardless of status labels; an issue with no
recognized status label defaults by open/closed state; and open issues are
categorized by the fixed priority order done, testing, in-progress, todo,
defaulting to backlog. -/
theorem toColumn_characterization (issue : GhIssue) :
    (issue.state = "closed" → toColumn issue = Col.done) ∧
    ((issue.labels.map (·.name)).filter (fun n => decide (n ∈ statusLabels)) = [] →
      toColumn issue = if issue.state = "closed" then Col.done else Col.backlog) ∧
    (issue.state ≠ "closed" →
      toColumn issue =
        (if "status:done" ∈ issue.labels.map (·.name) then Col.done
         else if "status:testing" ∈ issue.labels.map (·.name) then Col.testing
         else if "status:in-progress" ∈ issue.labels.map (·.name) then Col.inProgress
         else if "status:todo" ∈ issue.labels.map (·.name) then Col.todo
         else Col.backlog)) := by
  refine ⟨?_, ?_, ?_⟩
  · intro h
    simp [toColumn, h]
  · intro h
    have hnone : ∀ n ∈ issue.labels.map (·.name), n ∉ statusLabels := by
      intro n hn
      have := List.filter_eq_nil_iff.mp h n hn
      simpa using this
    have hd : "status:done" ∉ issue.labels.map (·.name) := fun hm =>
      hnone _ hm (by decide)
    have ht : "status:testing" ∉ issue.labels.map (·.name) := fun hm =>
      hnone _ hm (by decide)
    have hip : "status:in-progress" ∉ issue.labels.map (·.name) := fun hm =>
      hnone _ hm (by decide)
    have htd : "status:todo" ∉ issue.labels.map (·.name) := fun hm =>
      hnone _ hm (by decide)
    simp [toColumn, hd, ht, hip, htd]
  · intro h
    simp [toColumn, h]

/-- Witness for `toColumn_characterization`: a closed unlabeled issue is
done, an open unlabeled issue is backlog. -/
theorem toColumn_characterization_witness :
    toColumn ⟨"closed", []⟩ = Col.done ∧ toColumn ⟨"open", []⟩ = Col.backlog := by
  refine ⟨(toColumn_characterization ⟨"closed", []⟩).1 rfl, ?_⟩
  have h := (toColumn_characterization ⟨"open", []⟩).2.1 (by decide)
  simpa using h

/-- C8 counterexample: an open issue carrying `status:todo` before
`status:testing` is categorized into testing (fixed priority order), not
into the column of the first status label in upstream order. -/
theorem toColumn_label_order_counterexample :
    toColumn ⟨"open", [⟨"status:todo"⟩, ⟨"status:testing"⟩]⟩ = Col.testing ∧
    toColumnSpec ⟨"open", [⟨"status:todo"⟩, ⟨"status:testing"⟩]⟩ = Col.todo ∧
    Col.testing ≠ Col.todo := by
  decide

/-- C8 amended: severity and category derivation pick the first matching
label in upstream order, while the column computation resolves duplicate
status labels by the fixed priority order (testing beats todo wherever the
two appear in the list). -/
theorem familyWinner_policies :
    (∀ (pre post : List GhLabel) (l : GhLabel),
      (∀ x ∈ pre, strStartsWith x.name "severity:" = false) →
      strStartsWith l.name "severity:" = true →
      getSeverity (pre ++ l :: post) = splitSecondField l.name) ∧
    (∀ (pre post : List GhLabel) (l : GhLabel),
      (∀ x ∈ pre, strStartsWith x.name "category:" = false) →
      strStartsWith l.name "category:" = true →
      getCategory (pre ++ l :: post) = splitSecondField l.name) ∧
    (∀ issue : GhIssue, issue.state ≠ "closed" →
      "status:done" ∉ issue.labels.map (·.name) →
      "status:testing" ∈ issue.labels.map (·.name) →
      toColumn issue = Col.testing) := by
  refine ⟨?_, ?_, ?_⟩
  · intro pre post l hpre hl
    have hfind : (pre ++ l :: post).find? (fun x => strStartsWith x.name "severity:") = some l := by
      rw [List.find?_append]
      have h1 : pre.find? (fun x => strStartsWith x.name "severity:") = none := by
        rw [List.find?_eq_none]
        intro x hx
        simp [hpre x hx]
      rw [h1, Option.none_or]
      simp [List.find?_cons, hl]
    simp [getSeverity, hfind]
  · intro pre post l hpre hl
    have hfind : (pre ++ l :: post).find? (fun x => strStartsWith x.name "category:") = some l := by
      rw [List.find?_append]
      have h1 : pre.find? (fun x => strStartsWith x.name "category:") = none := by
        rw [List.find?_eq_none]
        intro x hx
        simp [hpre x hx]
      rw [h1, Option.none_or]
      simp [List.find?_cons, hl]
    simp [getCategory, hfind]
  · intro issue h hdone htest
    simp [toColumn, h, hdone, htest]

/-- Witness for `familyWinner_policies` at concrete label lists. -/
theorem familyWinner_policies_witness :
    getSeverity [⟨"bug"⟩, ⟨"severity:high"⟩, ⟨"severity:low"⟩] = "high" ∧
    getCategory [⟨"category:ui"⟩, ⟨"category:audio"⟩] = "ui" ∧
    toColumn ⟨"open", [⟨"status:testing"⟩]⟩ = Col.testing := by
  refine ⟨?_, ?_, ?_⟩
  · exact (familyWinner_policies.1 [⟨"bug"⟩] [⟨"severity:low"⟩] ⟨"severity:high"⟩
      (by decide) (by decide)).trans (by decide)
  · exact (familyWinner_policies.2.1 [] [⟨"category:audio"⟩] ⟨"category:ui"⟩
      (by simp) (by decide)).trans (by decide)
  · exact familyWinner_policies.2.2 ⟨"open", [⟨"status:testing"⟩]⟩
      (by decide) (by decide) (by decide)

/-- C4: from a fresh window, the 10th admission check for an address is
admitted and the 11th rejected; rejection writes nothing (the state after
call 11 equals the state after call 10 and the stored counter stays at 10);
and once the one-hour window has expired a new check is admitted again. -/
theorem checkRateLimit_window (ip : String) (now : Nat) :
    (checkRateLimit ip (rlStateAfter ip now 9) now).1 = true ∧
    (checkRateLimit ip (rlStateAfter ip now 10) now).1 = false ∧
    rlStateAfter ip now 11 = rlStateAfter ip now 10 ∧
    kvGet (rlStateAfter ip now 11) now ("rate:" ++ ip) = some "10" ∧
    (checkRateLimit ip (rlStateAfter ip now 11) (now + 3600)).1 = true := by
  have hlt : now < now + 3600 := by omega
  have hnlt : ¬ (now + 3600 < now + 3600) := by omega
  have round : ∀ k : Nat, k ≤ 10 → parseIntStr (Nat.repr k) = some k := by
    intro k hk
    interval_cases k <;> decide
  have hg : ∀ (v : String) (rest : KVStore String),
      kvGet (⟨"rate:" ++ ip, v, some (now + 3600)⟩ :: rest) now ("rate:" ++ ip) = some v := by
    intro v rest
    simp [kvGet, hlt]
  have hstep : ∀ (rest : KVStore String) (v : String) (k : Nat),
      parseIntStr v = some k → k < 10 →
      checkRateLimit ip (⟨"rate:" ++ ip, v, some (now + 3600)⟩ :: rest) now =
        (true, ⟨"rate:" ++ ip, Nat.repr (k + 1), some (now + 3600)⟩ ::
          ⟨"rate:" ++ ip, v, some (now + 3600)⟩ :: rest) := by
    intro rest v k hv hk
    have hnot : ¬ (k ≥ 10) := by omega
    simp [checkRateLimit, hg, hv, kvPut, hnot]
  have main : ∀ n : Nat, 1 ≤ n → n ≤ 10 →
      rlStateAfter ip now n =
        ⟨"rate:" ++ ip, Nat.repr n, some (now + 3600)⟩ :: rlStateAfter ip now (n - 1) := by
    intro n h1 h10
    induction n with
    | zero => omega
    | succ m ih =>
      by_cases hm : m = 0
      · subst hm
        show (checkRateLimit ip (rlStateAfter ip now 0) now).2 = _
        simp [rlStateAfter, checkRateLimit, kvGet, kvPut, show Nat.repr 1 = "1" from rfl]
      · have hm1 : 1 ≤ m := Nat.one_le_iff_ne_zero.mpr hm
        have hrw := ih hm1 (by omega)
        show (checkRateLimit ip (rlStateAfter ip now m) now).2 = _
        rw [Nat.add_sub_cancel]
        rw [hrw, hstep _ _ m (round m (by omega)) (by omega)]
  have hrej : ∀ rest : KVStore String,
      checkRateLimit ip (⟨"rate:" ++ ip, Nat.repr 10, some (now + 3600)⟩ :: rest) now =
        (false, ⟨"rate:" ++ ip, Nat.repr 10, some (now + 3600)⟩ :: rest) := by
    intro rest
    simp [checkRateLimit, hg, round 10 (by omega)]
  have s10 := main 10 (by omega) (by omega)
  have s11 : rlStateAfter ip now 11 = rlStateAfter ip now 10 := by
    have h0 : rlStateAfter ip now 11 = (checkRateLimit ip (rlStateAfter ip now 10) now).2 := rfl
    rw [h0]
    conv_lhs => rw [s10]
    rw [hrej]
    exact s10.symm
  refine ⟨?_, ?_, s11, ?_, ?_⟩
  · rw [main 9 (by omega) (by omega), hstep _ _ 9 (round 9 (by omega)) (by omega)]
  · rw [s10, hrej]
  · rw [s11, s10]
    have := hg (Nat.repr 10) (rlStateAfter ip now (10 - 1))
    simpa [show Nat.repr 10 = "10" from rfl] using this
  · rw [s11, s10]
    have hnone : kvGet
        (⟨"rate:" ++ ip, Nat.repr 10, some (now + 3600)⟩ :: rlStateAfter ip now (10 - 1))
        (now + 3600) ("rate:" ++ ip) = none := by
      simp [kvGet, hnlt]
    simp [checkRateLimit, hnone]

/-- C9: on a cache miss, a non-OK upstream fetch is propagated with the
upstream status and writes nothing; a cache entry is written (for 300
seconds) only after an OK fetch; and a cache hit is served exactly the
cached text without touching upstream. -/
theorem handleGetIssues_cache_discipline (owner repo : String)
    (params : List (String × String)) (now : Nat) (st : GwState)
    (s : Nat) (etext data v : String) (up : FetchResult) :
    (kvGet st.cache now ("issues:" ++ buildGithubIssuesUrl owner repo params) = none →
      (handleGetIssues owner repo params (.err s etext) now st).1 =
          { status := s, body := .upstreamError s } ∧
      (handleGetIssues owner repo params (.err s etext) now st).2.1 = st) ∧
    (kvGet st.cache now ("issues:" ++ buildGithubIssuesUrl owner repo params) = none →
      (handleGetIssues owner repo params (.ok data) now st).1 =
          { status := 200, body := .raw data, xCache := some "MISS" } ∧
      (handleGetIssues owner repo params (.ok data) now st).2.1.cache =
        kvPut st.cache now ("issues:" ++ buildGithubIssuesUrl owner repo params)
          data (some 300)) ∧
    (kvGet st.cache now ("issues:" ++ buildGithubIssuesUrl owner repo params) = some v →
      (handleGetIssues owner repo params up now st).1 =
          { status := 200, body := .raw v, xCache := some "HIT" } ∧
      (handleGetIssues owner repo params up now st).2.2 = []) := by
  refine ⟨?_, ?_, ?_⟩ <;> intro h <;> refine ⟨?_, ?_⟩ <;>
    simp [handleGetIssues, h]

/-- Witness for `handleGetIssues_cache_discipline`: a failed fetch against
an empty cache, and a hit against a populated one. -/
theorem handleGetIssues_cache_discipline_witness :
    ((handleGetIssues "o" "r" [] (FetchResult.err 502 "bad") 0 ⟨[], [], []⟩).1 =
        { status := 502, body := RespBody.upstreamError 502 } ∧
     (handleGetIssues "o" "r" [] (FetchResult.err 502 "bad") 0 ⟨[], [], []⟩).2.1 =
        ⟨[], [], []⟩) ∧
    ((handleGetIssues "o" "r" []
        (FetchResult.ok "FRESH") 0
        ⟨[], [], [⟨"issues:" ++ buildGithubIssuesUrl "o" "r" [], "VAL", none⟩]⟩).1 =
      { status := 200, body := RespBody.raw "VAL", xCache := some "HIT" }) :=
  ⟨(handleGetIssues_cache_discipline "o" "r" [] 0 ⟨[], [], []⟩ 502 "bad" "" ""
      (FetchResult.err 502 "bad")).1 rfl,
   ((handleGetIssues_cache_discipline "o" "r" [] 0
      ⟨[], [], [⟨"issues:" ++ buildGithubIssuesUrl "o" "r" [], "VAL", none⟩]⟩
      502 "bad" "" "VAL" (FetchResult.ok "FRESH")).2.2 (by decide)).1⟩

/-- C5 counterexample: populate the issues cache, perform a successful bug
submission through the gateway, then read again within the TTL: the read is
served the pre-write cached copy (X-Cache HIT, no upstream call), so the
write invalidated nothing. -/
theorem gateway_write_no_invalidate_counterexample :
    (handleBugSubmit (some "198.51.100.7") none
        { title := some "T", description := some "D" }
        (CreateResult.ok 7 "https://x") 1
        (handleGetIssues "o" "r" [("state", "open")] (FetchResult.ok "DATA1") 0
          ⟨[], [], []⟩).2.1).1.status = 200 ∧
    (handleGetIssues "o" "r" [("state", "open")] (FetchResult.ok "DATA2") 2
        (handleBugSubmit (some "198.51.100.7") none
            { title := some "T", description := some "D" }
            (CreateResult.ok 7 "https://x") 1
            (handleGetIssues "o" "r" [("state", "open")] (FetchResult.ok "DATA1") 0
              ⟨[], [], []⟩).2.1).2.1).1 =
      { status := 200, body := RespBody.raw "DATA1", xCache := some "HIT" } ∧
    (handleGetIssues "o" "r" [("state", "open")] (FetchResult.ok "DATA2") 2
        (handleBugSubmit (some "198.51.100.7") none
            { title := some "T", description := some "D" }
            (CreateResult.ok 7 "https://x") 1
            (handleGetIssues "o" "r" [("state", "open")] (FetchResult.ok "DATA1") 0
              ⟨[], [], []⟩).2.1).2.1).2.2 = [] ∧
    ("DATA1" : String) ≠ "DATA2" := by
  decide

/-- C5 amended: neither write handler of the worker touches the CACHE
namespace at all — write traffic leaves every cache entry in place until its
TTL expires (only the client-side wrapper clears its own separate cache). -/
theorem gateway_writes_leave_cache (ip tok : Option String) (b : BugBody)
    (cr : CreateResult) (now : Nat) (st : GwState) (num : String)
    (lf : Option (List String)) (up : FetchResult) :
    (handleBugSubmit ip tok b cr now st).2.1.cache = st.cache ∧
    (handleUpdateLabels num lf up st).2.1.cache = st.cache := by
  constructor
  · simp only [handleBugSubmit]
    split
    · rfl
    · split
      · rfl
      · cases cr <;> rfl
  · cases lf with
    | none => rfl
    | some ls => cases up <;> rfl

/-- C6 counterexample: with the rate counter of an address already at the
ceiling (its admission check returns false), the label-update handler still
issues the upstream call and answers 200, not 429 — it consults neither the
rate limiter nor the token store. -/
theorem updateLabels_no_gate_counterexample :
    (checkRateLimit "198.51.100.7"
        ([⟨"rate:198.51.100.7", "10", none⟩] : KVStore String) 0).1 = false ∧
    (handleUpdateLabels "42" (some ["bug"]) (FetchResult.ok "RESP")
        ⟨[], [⟨"rate:198.51.100.7", "10", none⟩], []⟩).2.2 =
      [UpstreamCall.putLabels "42" ["bug"]] ∧
    (handleUpdateLabels "42" (some ["bug"]) (FetchResult.ok "RESP")
        ⟨[], [⟨"rate:198.51.100.7", "10", none⟩], []⟩).1.status = 200 := by
  decide

/-- C6 amended: only the bug-submission handler gates writes — when its
admission check fails it answers 429, makes no upstream call and leaves the
token store untouched; the label-update handler always issues its upstream
call once the labels array is present, regardless of any rate state. -/
theorem write_gate_policy :
    (∀ (ip tok : Option String) (b : BugBody) (cr : CreateResult) (now : Nat) (st : GwState),
      (checkRateLimit (ip.getD "unknown") st.rateLimit now).1 = false →
      (handleBugSubmit ip tok b cr now st).1 =
          { status := 429,
            body := .errMsg "Rate limit exceeded. Please try again later." } ∧
      (handleBugSubmit ip tok b cr now st).2.2 = [] ∧
      (handleBugSubmit ip tok b cr now st).2.1.tokens = st.tokens) ∧
    (∀ (num : String) (ls : List String) (up : FetchResult) (st : GwState),
      (handleUpdateLabels num (some ls) up st).2.2 = [UpstreamCall.putLabels num ls]) := by
  constructor
  · intro ip tok b cr now st h
    refine ⟨?_, ?_, ?_⟩ <;> simp [handleBugSubmit, h]
  · intro num ls up st
    cases up <;> rfl

/-- Witness for `write_gate_policy` at concrete requests. -/
theorem write_gate_policy_witness :
    (handleBugSubmit (some "198.51.100.7") none
        { title := some "T", description := some "D" }
        (CreateResult.ok 7 "u") 0 ⟨[], [⟨"rate:198.51.100.7", "10", none⟩], []⟩).1 =
      { status := 429,
        body := RespBody.errMsg "Rate limit exceeded. Please try again later." } ∧
    (handleUpdateLabels "42" (some ["bug"]) (FetchResult.ok "RESP") ⟨[], [], []⟩).2.2 =
      [UpstreamCall.putLabels "42" ["bug"]] :=
  ⟨(write_gate_policy.1 (some "198.51.100.7") none
      { title := some "T", description := some "D" } (CreateResult.ok 7 "u") 0
      ⟨[], [⟨"rate:198.51.100.7", "10", none⟩], []⟩ (by decide)).1,
   write_gate_policy.2 "42" ["bug"] (FetchResult.ok "RESP") ⟨[], [], []⟩⟩

set_option maxRecDepth 16384 in
/-- C3 counterexample: a valid anonymous submission with no severity and no
category field succeeds with a numeric issue number, but the labels sent
upstream are exactly bug and web-submission — no `severity:medium` and no
`category:general` label is attached. -/
theorem handleBugSubmit_default_labels_counterexample :
    (handleBugSubmit (some "203.0.113.1") none
        { title := some "Crash on launch", description := some "App crashes immediately" }
        (CreateResult.ok 1 "https://github.com/catnet-systems/vros-bugs/issues/1") 0
        ⟨[], [], []⟩).1 =
      { status := 200,
        body := RespBody.submitOk 1 "https://github.com/catnet-systems/vros-bugs/issues/1"
          "Bug report submitted successfully" } ∧
    (handleBugSubmit (some "203.0.113.1") none
        { title := some "Crash on launch", description := some "App crashes immediately" }
        (CreateResult.ok 1 "https://github.com/catnet-systems/vros-bugs/issues/1") 0
        ⟨[], [], []⟩).2.2 =
      [UpstreamCall.createIssue "Crash on launch"
        (buildIssueBody
          { title := some "Crash on launch", description := some "App crashes immediately" }
          false)
        ["bug", "web-submission"]] ∧
    "severity:medium" ∉ (["bug", "web-submission"] : List String) ∧
    "category:general" ∉ (["bug", "web-submission"] : List String) := by
  decide

set_option maxRecDepth 16384 in
/-- C3 amended: an admitted anonymous submission with non-empty title and
description and no severity/category fields yields the success envelope with
the upstream issue number, sends exactly the labels bug and web-submission,
and embeds the medium/general defaults only in the generated body text. -/
theorem handleBugSubmit_anonymous_defaults
    (ip tok : Option String) (b : BugBody) (n : Nat) (u : String)
    (now : Nat) (st : GwState)
    (hgate : (checkRateLimit (ip.getD "unknown") st.rateLimit now).1 = true)
    (hanon : (validateAppToken tok st.tokens now).1 = false)
    (htitle : jsTruthy b.title = true) (hdesc : jsTruthy b.description = true)
    (hsev : b.severity = none) (hcat : b.category = none) :
    (handleBugSubmit ip tok b (CreateResult.ok n u) now st).1 =
      { status := 200, body := .submitOk n u "Bug report submitted successfully" } ∧
    (handleBugSubmit ip tok b (CreateResult.ok n u) now st).2.2 =
      [UpstreamCall.createIssue (jsInterp b.title) (buildIssueBody b false)
        ["bug", "web-submission"]] ∧
    ∃ s t : String, buildIssueBody b false =
      s ++ "## Severity\nmedium\n\n## Category\ngeneral" ++ t := by
  refine ⟨?_, ?_, ?_⟩
  · simp [handleBugSubmit, hgate, hanon, htitle, hdesc]
  · have hj : jsTruthy (none : Option String) = false := rfl
    simp [handleBugSubmit, hgate, hanon, htitle, hdesc, submitLabels, hsev, hcat, hj]
  · refine ⟨"## Description\n" ++ jsInterp b.description ++ "\n\n",
      "\n\n" ++
      (if jsTruthy b.steps then "## Steps to Reproduce\n" ++ jsInterp b.steps ++ "\n" else "") ++
      "\n" ++
      (if jsTruthy b.expected then "## Expected Behavior\n" ++ jsInterp b.expected ++ "\n" else "") ++
      "\n" ++
      (if jsTruthy b.actual then "## Actual Behavior\n" ++ jsInterp b.actual ++ "\n" else "") ++
      "\n\n## System Information\n- **Submitted from:** Web" ++
      "\n- **OS:** " ++ jsOr (b.systemInfo.bind (·.os)) "Unknown" ++
      "\n- **Browser:** " ++ jsOr (b.systemInfo.bind (·.browser)) "Unknown" ++
      "\n- **App Version:** " ++ jsOr (b.systemInfo.bind (·.version)) "N/A" ++
      "\n- **VR Headset:** " ++ jsOr (b.systemInfo.bind (·.headset)) "None" ++
      "\n\n" ++
      (if jsTruthy b.additional then "## Additional Information\n" ++ jsInterp b.additional else "") ++
      "\n\n---\n*Submitted via VROS Bug Tracker (Web)*", ?_⟩
    simp only [buildIssueBody, hsev, hcat, jsOr]
    apply String.ext
    simp [String.data_append, List.append_assoc]

/-- Witness for `handleBugSubmit_anonymous_defaults` at a concrete
anonymous submission. -/
theorem handleBugSubmit_anonymous_defaults_witness :
    (handleBugSubmit (some "203.0.113.9") none
        { title := some "Crash on launch", description := some "App crashes immediately" }
        (CreateResult.ok 3 "https://x") 0 ⟨[], [], []⟩).1 =
      { status := 200,
        body := RespBody.submitOk 3 "https://x" "Bug report submitted successfully" } :=
  (handleBugSubmit_anonymous_defaults (some "203.0.113.9") none
    { title := some "Crash on launch", description := some "App crashes immediately" }
    3 "https://x" 0 ⟨[], [], []⟩
    (by decide) (by decide) (by decide) (by decide) rfl rfl).1

/-- Digit characters produced by the numeral printer are decimal digits. -/
theorem digitChar_isDigit (n : Nat) (h : n < 10) : (Nat.digitChar n).isDigit = true := by
  interval_cases n <;> decide

/-- Every character the core numeral printer emits (over digit seeds) is a
decimal digit. -/
theorem toDigitsCore_digits : ∀ (fuel n : Nat) (ds : List Char),
    (∀ c ∈ ds, c.isDigit = true) → ∀ c ∈ Nat.toDigitsCore 10 fuel n ds, c.isDigit = true := by
  intro fuel
  induction fuel with
  | zero =>
    intro n ds hds c hc
    exact hds c hc
  | succ f ih =>
    intro n ds hds c hc
    have hd : ∀ c2 ∈ (Nat.digitChar (n % 10) :: ds), c2.isDigit = true := by
      intro c2 hc2
      rcases List.mem_cons.mp hc2 with h | h
      · subst h
        exact digitChar_isDigit _ (Nat.mod_lt _ (by norm_num))
      · exact hds c2 h
    by_cases h0 : n / 10 = 0
    · simp only [Nat.toDigitsCore, h0, if_pos] at hc
      exact hd c hc
    · simp only [Nat.toDigitsCore, h0, if_neg] at hc
      exact ih (n / 10) _ hd c hc

/-- With enough fuel the core numeral printer emits at least one character. -/
theorem toDigitsCore_ne_nil : ∀ (fuel n : Nat) (ds : List Char), n < fuel →
    Nat.toDigitsCore 10 fuel n ds ≠ [] := by
  intro fuel
  induction fuel with
  | zero =>
    intro n ds h
    exact absurd h (Nat.not_lt_zero n)
  | succ f ih =>
    intro n ds h
    by_cases h0 : n / 10 = 0
    · simp [Nat.toDigitsCore, h0]
    · simp only [Nat.toDigitsCore, h0, if_neg]
      exact ih (n / 10) _ (by omega)

/-- The decimal representation of a natural number is all digits. -/
theorem natRepr_digits (n : Nat) : ∀ c ∈ (Nat.repr n).data, c.isDigit = true :=
  toDigitsCore_digits (n + 1) n [] (by simp)

/-- The decimal representation of a natural number is non-empty. -/
theorem natRepr_ne_nil (n : Nat) : (Nat.repr n).data ≠ [] :=
  toDigitsCore_ne_nil (n + 1) n [] (Nat.lt_succ_self n)

/-- Stripping a prefix from exactly that prefix plus a remainder. -/
theorem stripPfx_append (pre rest : List Char) : stripPfx pre (pre ++ rest) = some rest := by
  induction pre with
  | nil => rfl
  | cons a as ih => simp [stripPfx, ih]

/-- takeWhile passes over a block that satisfies the predicate. -/
theorem takeWhile_all_append (p : Char → Bool) (l1 l2 : List Char)
    (h : ∀ c ∈ l1, p c = true) :
    (l1 ++ l2).takeWhile p = l1 ++ l2.takeWhile p := by
  induction l1 with
  | nil => simp
  | cons a as ih =>
    simp only [List.cons_append, List.takeWhile_cons]
    rw [h a (by simp)]
    simp [ih (fun c hc => h c (by simp [hc]))]

/-- dropWhile drops a whole block that satisfies the predicate. -/
theorem dropWhile_all_append (p : Char → Bool) (l1 l2 : List Char)
    (h : ∀ c ∈ l1, p c = true) :
    (l1 ++ l2).dropWhile p = l2.dropWhile p := by
  induction l1 with
  | nil => simp
  | cons a as ih =>
    simp only [List.cons_append, List.dropWhile_cons]
    rw [h a (by simp)]
    simp [ih (fun c hc => h c (by simp [hc]))]

/-- The label-update route pattern accepts `/api/issues/<n>/labels` and
captures the number. -/
theorem matchLabels_put (n : Nat) :
    matchIssueLabelsPath ("/api/issues/" ++ Nat.repr n ++ "/labels") = some (Nat.repr n) := by
  have hdata : ("/api/issues/" ++ Nat.repr n ++ "/labels").data =
      "/api/issues/".data ++ ((Nat.repr n).data ++ "/labels".data) := by
    simp [String.data_append]
  simp only [matchIssueLabelsPath, hdata, stripPfx_append]
  rw [takeWhile_all_append _ _ _ (natRepr_digits n),
    dropWhile_all_append _ _ _ (natRepr_digits n),
    show "/labels".data.takeWhile Char.isDigit = [] from by decide,
    show "/labels".data.dropWhile Char.isDigit = "/labels".data from by decide,
    List.append_nil]
  rw [if_pos ⟨natRepr_ne_nil n, rfl⟩]

/-- The label-update route pattern rejects the bare `/api/issues/<n>` path. -/
theorem matchLabels_bare (n : Nat) :
    matchIssueLabelsPath ("/api/issues/" ++ Nat.repr n) = none := by
  have hdata : ("/api/issues/" ++ Nat.repr n).data =
      "/api/issues/".data ++ (Nat.repr n).data :=
    String.data_append _ _
  simp only [matchIssueLabelsPath, hdata, stripPfx_append]
  have ht : (Nat.repr n).data.takeWhile Char.isDigit = (Nat.repr n).data := by
    have := takeWhile_all_append Char.isDigit (Nat.repr n).data [] (natRepr_digits n)
    simpa using this
  have hw : (Nat.repr n).data.dropWhile Char.isDigit = [] := by
    have := dropWhile_all_append Char.isDigit (Nat.repr n).data [] (natRepr_digits n)
    simpa using this
  rw [ht, hw, if_neg]
  intro hc
  exact absurd hc.2 (by decide)

/-- C10: the path `/api/issues/<n>` with method GET — the very request the
client label updater performs to read current labels — matches no route of
the worker and falls through to the uniform 404 envelope; the same path is
routed only for PUT on the `/labels` suffix, while GET issue reads are
routed only at the exact path `/api/issues`. -/
theorem routeOf_issue_number_read (n : Nat) :
    routeOf "GET" ("/api/issues/" ++ Nat.repr n) = RouteResult.notFound ∧
    notFoundResponse = { status := 404, body := RespBody.errMsg "Not found" } ∧
    routeOf "PUT" ("/api/issues/" ++ Nat.repr n ++ "/labels") =
      RouteResult.updateLabels (Nat.repr n) ∧
    routeOf "GET" "/api/issues" = RouteResult.getIssues := by
  have hd : ("/api/issues/" ++ Nat.repr n).data =
      "/api/issues/".data ++ (Nat.repr n).data :=
    String.data_append _ _
  have hfive : ∀ x : List Char, ("/api/issues/".data ++ x)[5]? = some 'i' := by
    intro x
    simp [List.getElem?_append]
  have hne : ∀ L : String, L.data[5]? ≠ some 'i' → ("/api/issues/" ++ Nat.repr n) ≠ L := by
    intro L hL h
    apply hL
    have hdd := congrArg String.data h
    rw [hd] at hdd
    rw [← hdd]
    exact hfive _
  have h1 : ("/api/issues/" ++ Nat.repr n) ≠ "/api/issues" := by
    intro h
    have hdd := congrArg String.data h
    rw [hd] at hdd
    have hlen := congrArg List.length hdd
    simp [List.length_append] at hlen
  have h2 := hne "/api/patch-notes" (by decide)
  have h3 := hne "/api/latest-version" (by decide)
  have h4 := hne "/api/stats" (by decide)
  have h5 := hne "/api/health" (by decide)
  refine ⟨?_, rfl, ?_, by decide⟩
  · simp only [routeOf, routeRest, matchLabels_bare, h1, h2, h3, h4, h5]
    simp
  · simp only [routeOf, matchLabels_put]
    simp
